import Mathlib

/-!
# Capital Region Explorer — verification of the normalizer / filter-engine core

Shallow embedding of the logic core of `src/components/MapView.jsx`:
the city-file normalizer (`normalizeCityFile`), the experience-tag matcher
(`matchesExperienceTags`), the filter engine (`filteredLandmarks` useMemo,
called `filterLandmarks` here), the nearby computation (`nearby` useMemo,
generalised over radius and limit as `computeNearby`), the haversine
distance (`haversineMiles`), the saved-set toggle (`toggleSaved`) and the
saved-set initializer read from durable storage (`initialSavedLandmarks`).

JavaScript numbers are modelled by an arbitrary linearly ordered type `K`
for the purely structural code (mapping, filtering, sorting, truncating)
and by the real numbers where the trigonometric haversine formula itself
is involved.  JS template-literal interpolation of a raw record id is
modelled by taking the raw id in its string form.
-/

namespace CapitalRegionExplorer

/-- A raw per-city record as found in the bundled JSON files.  `typetag`,
`type` and `experiencetag` are optional: `none` models the field being
absent (`undefined`); for `experiencetag`, `some` models the field being
present and sequence-shaped (`Array.isArray` true), `none` models it
absent or malformed. -/
structure RawLandmark (K : Type) where
  id : String
  name : String
  description : Option String
  address : Option String
  latitude : K
  longitude : K
  website : Option String
  typetag : Option String
  type : Option String
  experiencetag : Option (List String)

/-- A city file: `{ city, landmarks }`. -/
structure CityFile (K : Type) where
  city : String
  landmarks : List (RawLandmark K)

/-- The canonical landmark record produced by the normalizer. -/
structure Landmark (K : Type) where
  id : String
  city : String
  name : String
  description : Option String
  address : Option String
  lat : K
  lng : K
  website : Option String
  typetag : String
  experiencetag : List String

/-- A user location `{lat, lng}` as delivered by geolocation. -/
structure UserLocation (K : Type) where
  lat : K
  lng : K

/-- The ephemeral filter selection held in UI state: `selectedCity` and
`selectedType` are single-select with the empty string meaning "no
filter" (JS string truthiness), `selectedExperienceTags` is multi-select. -/
structure FilterSelection where
  selectedCity : String
  selectedType : String
  selectedExperienceTags : List String

/-- `normalizeCityFile` from MapView.jsx lines 49-69:
`typetag := lm.typetag ?? lm.type ?? ""` (nullish coalescing),
`experiencetag := Array.isArray(lm.experiencetag) ? lm.experiencetag : []`,
`id := city.toLowerCase() + "-" + lm.id`. -/
def normalizeCityFile {K : Type} (cityFile : CityFile K) : List (Landmark K) :=
  cityFile.landmarks.map fun lm =>
    { id := cityFile.city.toLower ++ "-" ++ lm.id
      city := cityFile.city
      name := lm.name
      description := lm.description
      address := lm.address
      lat := lm.latitude
      lng := lm.longitude
      website := lm.website
      typetag := lm.typetag.getD (lm.type.getD "")
      experiencetag := lm.experiencetag.getD [] }

/-- `matchesExperienceTags` from MapView.jsx lines 93-96: true when no tag
is selected, otherwise every selected tag must appear in the landmark's
`experiencetag` list (AND semantics). -/
def matchesExperienceTags {K : Type} (landmark : Landmark K)
    (selectedExperienceTags : List String) : Bool :=
  if selectedExperienceTags.length = 0 then true
  else selectedExperienceTags.all fun tag => landmark.experiencetag.contains tag

/-- The `filteredLandmarks` useMemo from MapView.jsx lines 480-487: a
landmark passes when the selected city is unset (empty string, falsy in
JS) or equal to its city, likewise for the selected type, and it matches
the selected experience tags. -/
def filterLandmarks {K : Type} (landmarks : List (Landmark K))
    (sel : FilterSelection) : List (Landmark K) :=
  landmarks.filter fun l =>
    (if sel.selectedCity = "" then true else decide (l.city = sel.selectedCity)) &&
    (if sel.selectedType = "" then true else decide (l.typetag = sel.selectedType)) &&
    matchesExperienceTags l sel.selectedExperienceTags

/-- `toggleSaved` from MapView.jsx lines 513-519, as the pure state update
it applies: `prev.includes(id) ? prev.filter(i => i !== id) : [...prev, id]`. -/
def toggleSaved (landmarkId : String) (prev : List String) : List String :=
  if prev.contains landmarkId then prev.filter fun i => decide (i ≠ landmarkId)
  else prev ++ [landmarkId]

/-- The `useState` initializer for `savedLandmarks`, MapView.jsx lines
417-424: `stored` is what `localStorage.getItem("savedLandmarks")`
returned (`none` models `null`), and the platform's `JSON.parse` is
modelled by an arbitrary `parse` function returning `none` when it throws
(the `catch` path) and `some` with the decoded array of id strings
otherwise.  The JS truthiness test `saved ? ... : []` sends the empty
string to the empty list without parsing. -/
def initialSavedLandmarks (stored : Option String)
    (parse : String → Option (List String)) : List String :=
  match stored with
  | none => []
  | some saved => if saved = "" then [] else (parse saved).getD []

/-- Ordering of distance-annotated values by their attached distance; the
model of the JS comparator `(a, b) => a.distanceMi - b.distanceMi`. -/
def distanceLe {α K : Type} [LE K] (p q : α × K) : Prop := p.2 ≤ q.2

instance {α K : Type} [LinearOrder K] : DecidableRel (@distanceLe α K _) :=
  fun p q => inferInstanceAs (Decidable (p.2 ≤ q.2))

instance {α K : Type} [LinearOrder K] : IsTotal (α × K) (@distanceLe α K _) :=
  ⟨fun p q => le_total p.2 q.2⟩

instance {α K : Type} [LinearOrder K] : IsTrans (α × K) (@distanceLe α K _) :=
  ⟨fun _ _ _ h h2 => le_trans h h2⟩

/-- The `.map` stage of the `nearby` useMemo (MapView.jsx lines 495-499):
pair each landmark with its distance to the user location.  The JS record
extension `{...l, distanceMi}` is modelled by the pair. -/
def withDistance {K : Type} (dist : K → K → K → K → K) (u : UserLocation K)
    (landmarks : List (Landmark K)) : List (Landmark K × K) :=
  landmarks.map fun l => (l, dist u.lat u.lng l.lat l.lng)

/-- The `.filter(...).sort(...)` stages of the `nearby` useMemo (MapView.jsx
lines 500-501): keep the landmarks within the radius (inclusive) and sort
them ascending by distance. -/
def sortedWithinRadius {K : Type} [LinearOrder K] (dist : K → K → K → K → K)
    (u : UserLocation K) (landmarks : List (Landmark K)) (radiusMiles : K) :
    List (Landmark K × K) :=
  List.insertionSort (@distanceLe (Landmark K) K _)
    ((withDistance dist u landmarks).filter fun p => decide (p.2 ≤ radiusMiles))

/-- The whole `nearby` useMemo pipeline (MapView.jsx lines 492-505),
generalised over the distance function, the radius and the limit: empty
when the user location is absent, otherwise map to distances, filter to
the radius, sort ascending by distance and truncate to `limit` entries
(`.slice(0, limit)`). -/
def computeNearby {K : Type} [LinearOrder K] (dist : K → K → K → K → K)
    (landmarks : List (Landmark K)) (userLocation : Option (UserLocation K))
    (radiusMiles : K) (limit : Nat) : List (Landmark K × K) :=
  match userLocation with
  | none => []
  | some u => (sortedWithinRadius dist u landmarks radiusMiles).take limit

/-- Degrees to radians, `(v * Math.PI) / 180` (MapView.jsx line 122). -/
noncomputable def toRad (v : ℝ) : ℝ := v * Real.pi / 180

/-- `haversineMiles` from MapView.jsx lines 121-133: great-circle distance
in miles by the haversine formula with Earth radius 3958.7613 miles. -/
noncomputable def haversineMiles (lat1 lon1 lat2 lon2 : ℝ) : ℝ :=
  let R : ℝ := 3958.7613
  let dLat := toRad (lat2 - lat1)
  let dLon := toRad (lon2 - lon1)
  let a := Real.sin (dLat / 2) ^ 2 +
    Real.cos (toRad lat1) * Real.cos (toRad lat2) * Real.sin (dLon / 2) ^ 2
  2 * R * Real.arcsin (Real.sqrt a)

/-- `NEARBY_RADIUS_MI` (MapView.jsx line 489). -/
def NEARBY_RADIUS_MI : ℝ := 3

/-- `NEARBY_LIMIT` (MapView.jsx line 490). -/
def NEARBY_LIMIT : Nat := 10

/-- The `nearby` useMemo exactly as composed in MapView.jsx lines 492-505:
it starts from `filteredLandmarks` (not from the full landmark list) and
uses the haversine distance, the 3-mile radius and the 10-entry limit. -/
noncomputable def nearby (landmarks : List (Landmark ℝ)) (sel : FilterSelection)
    (userLocation : Option (UserLocation ℝ)) : List (Landmark ℝ × ℝ) :=
  computeNearby haversineMiles (filterLandmarks landmarks sel) userLocation
    NEARBY_RADIUS_MI NEARBY_LIMIT

/-! ## Helper lemmas shared by the claim theorems -/

lemma matchesExperienceTags_eq_true {K : Type} (lm : Landmark K)
    (tags : List String) :
    matchesExperienceTags lm tags = true ↔ ∀ t ∈ tags, t ∈ lm.experiencetag := by
  unfold matchesExperienceTags
  rcases tags with _ | ⟨t, ts⟩
  · simp
  · simp [List.all_eq_true]

lemma mem_filterLandmarks {K : Type} (landmarks : List (Landmark K))
    (sel : FilterSelection) (l : Landmark K) :
    l ∈ filterLandmarks landmarks sel ↔
      l ∈ landmarks ∧
      (sel.selectedCity = "" ∨ l.city = sel.selectedCity) ∧
      (sel.selectedType = "" ∨ l.typetag = sel.selectedType) ∧
      matchesExperienceTags l sel.selectedExperienceTags = true := by
  unfold filterLandmarks
  by_cases hc : sel.selectedCity = "" <;> by_cases ht : sel.selectedType = "" <;>
    simp [List.mem_filter, hc, ht, and_assoc]

lemma mem_withDistance {K : Type} (dist : K → K → K → K → K) (u : UserLocation K)
    (landmarks : List (Landmark K)) (p : Landmark K × K) :
    p ∈ withDistance dist u landmarks ↔
      p.1 ∈ landmarks ∧ p.2 = dist u.lat u.lng p.1.lat p.1.lng := by
  unfold withDistance
  rw [List.mem_map]
  constructor
  · rintro ⟨l, hl, rfl⟩
    exact ⟨hl, rfl⟩
  · rcases p with ⟨l, d⟩
    rintro ⟨hl, hd⟩
    simp only at hl hd
    exact ⟨l, hl, by rw [hd]⟩

lemma mem_sortedWithinRadius {K : Type} [LinearOrder K]
    (dist : K → K → K → K → K) (u : UserLocation K)
    (landmarks : List (Landmark K)) (radiusMiles : K) (p : Landmark K × K) :
    p ∈ sortedWithinRadius dist u landmarks radiusMiles ↔
      p.1 ∈ landmarks ∧ p.2 = dist u.lat u.lng p.1.lat p.1.lng ∧
      p.2 ≤ radiusMiles := by
  unfold sortedWithinRadius
  rw [List.mem_insertionSort, List.mem_filter, mem_withDistance,
    decide_eq_true_eq, and_assoc]

lemma sortedWithinRadius_pairwise {K : Type} [LinearOrder K]
    (dist : K → K → K → K → K) (u : UserLocation K)
    (landmarks : List (Landmark K)) (radiusMiles : K) :
    List.Pairwise (@distanceLe (Landmark K) K _)
      (sortedWithinRadius dist u landmarks radiusMiles) :=
  List.sorted_insertionSort _ _

lemma pairwise_take_drop {α : Type} {r : α → α → Prop} {l : List α}
    (h : l.Pairwise r) (n : ℕ) :
    ∀ p ∈ l.take n, ∀ q ∈ l.drop n, r p q := by
  have htd := List.take_append_drop n l
  rw [← htd] at h
  exact (List.pairwise_append.mp h).2.2

lemma computeNearby_some {K : Type} [LinearOrder K]
    (dist : K → K → K → K → K) (landmarks : List (Landmark K))
    (u : UserLocation K) (radiusMiles : K) (limit : Nat) :
    computeNearby dist landmarks (some u) radiusMiles limit
      = (sortedWithinRadius dist u landmarks radiusMiles).take limit := rfl

lemma mem_computeNearby {K : Type} [LinearOrder K]
    (dist : K → K → K → K → K) (landmarks : List (Landmark K))
    (userLocation : Option (UserLocation K)) (radiusMiles : K) (limit : Nat)
    (p : Landmark K × K)
    (hp : p ∈ computeNearby dist landmarks userLocation radiusMiles limit) :
    ∃ u, userLocation = some u ∧ p.1 ∈ landmarks ∧
      p.2 = dist u.lat u.lng p.1.lat p.1.lng ∧ p.2 ≤ radiusMiles := by
  rcases userLocation with _ | u
  · simp [computeNearby] at hp
  · refine ⟨u, rfl, ?_⟩
    rw [computeNearby_some] at hp
    have hmem := List.take_sublist limit _ |>.subset hp
    exact (mem_sortedWithinRadius dist u landmarks radiusMiles p).mp hmem

/-- A concrete landmark used to instantiate hypotheses of claim theorems. -/
def lmOutdoors : Landmark ℚ :=
  { id := "troy-1", city := "Troy", name := "Monument", description := none,
    address := none, lat := 42, lng := -73, website := none, typetag := "",
    experiencetag := ["Outdoors"] }

/-- C3: for every landmark and selected-tag list, `matchesExperienceTags` is
true on the empty selection, and in general is true exactly when every
selected tag appears in the landmark's `experiencetag` sequence (AND
semantics across tags, not OR). -/
theorem matchesExperienceTags_spec {K : Type} (landmark : Landmark K)
    (tags : List String) :
    matchesExperienceTags landmark [] = true ∧
    (matchesExperienceTags landmark tags = true ↔
      ∀ t ∈ tags, t ∈ landmark.experiencetag) :=
  ⟨by simp [matchesExperienceTags], matchesExperienceTags_eq_true landmark tags⟩

/-- C2: `filterLandmarks` keeps exactly the landmarks passing the city,
type and experience-tag predicates (empty selection components pass
everything), and its output is a subsequence of its input in the original
order. -/
theorem filterLandmarks_spec {K : Type} (landmarks : List (Landmark K))
    (sel : FilterSelection) :
    (∀ l, l ∈ filterLandmarks landmarks sel ↔
      l ∈ landmarks ∧
      (sel.selectedCity = "" ∨ l.city = sel.selectedCity) ∧
      (sel.selectedType = "" ∨ l.typetag = sel.selectedType) ∧
      matchesExperienceTags l sel.selectedExperienceTags = true) ∧
    (filterLandmarks landmarks sel).Sublist landmarks :=
  ⟨mem_filterLandmarks landmarks sel, List.filter_sublist _⟩

/-- C5: `matchesExperienceTags` is monotonically restrictive: when a
landmark fails the filter for a tag list, it also fails for every
superlist, so adding a tag can only shrink the passing set. -/
theorem matchesExperienceTags_monotone {K : Type} (landmark : Landmark K)
    (tags moreTags : List String) (hsub : tags ⊆ moreTags)
    (hfail : matchesExperienceTags landmark tags = false) :
    matchesExperienceTags landmark moreTags = false := by
  by_contra hmore
  rw [Bool.not_eq_false, matchesExperienceTags_eq_true] at hmore
  have hall : matchesExperienceTags landmark tags = true :=
    (matchesExperienceTags_eq_true landmark tags).mpr
      fun t ht => hmore t (hsub ht)
  rw [hall] at hfail
  cases hfail

theorem matchesExperienceTags_monotone_witness :
    matchesExperienceTags lmOutdoors ["Free", "Outdoors"] = false :=
  matchesExperienceTags_monotone lmOutdoors ["Free"] ["Free", "Outdoors"]
    (by simp) (by decide)

/-- C6: `toggleSaved` appends the id when it is absent, removes it when
present, and applying it twice with the same id gives back the original
saved set (the same ids are members). -/
theorem toggleSaved_spec (landmarkId : String) (prev : List String) :
    (landmarkId ∉ prev → toggleSaved landmarkId prev = prev ++ [landmarkId]) ∧
    (landmarkId ∈ prev →
      ∀ x, x ∈ toggleSaved landmarkId prev ↔ x ∈ prev ∧ x ≠ landmarkId) ∧
    (∀ x, x ∈ toggleSaved landmarkId (toggleSaved landmarkId prev) ↔ x ∈ prev) := by
  by_cases hmem : landmarkId ∈ prev
  · have h1 : toggleSaved landmarkId prev
        = prev.filter fun i => decide (i ≠ landmarkId) := by
      unfold toggleSaved
      rw [if_pos (by simpa using hmem)]
    refine ⟨fun h => absurd hmem h, fun _ x => ?_, fun x => ?_⟩
    · rw [h1, List.mem_filter, decide_eq_true_eq]
    · have h2 : toggleSaved landmarkId (toggleSaved landmarkId prev)
          = (prev.filter fun i => decide (i ≠ landmarkId)) ++ [landmarkId] := by
        rw [h1]
        unfold toggleSaved
        rw [if_neg (by simp [List.mem_filter])]
      rw [h2]
      simp only [List.mem_append, List.mem_filter, decide_eq_true_eq,
        List.mem_singleton]
      constructor
      · rintro (⟨hx, _⟩ | rfl)
        · exact hx
        · exact hmem
      · intro hx
        by_cases hid : x = landmarkId
        · exact Or.inr hid
        · exact Or.inl ⟨hx, hid⟩
  · have h1 : toggleSaved landmarkId prev = prev ++ [landmarkId] := by
      unfold toggleSaved
      rw [if_neg (by simpa using hmem)]
    refine ⟨fun _ => h1, fun h => absurd h hmem, fun x => ?_⟩
    have h2 : toggleSaved landmarkId (prev ++ [landmarkId]) = prev := by
      unfold toggleSaved
      rw [if_pos (by simp)]
      rw [List.filter_append]
      have hself : prev.filter (fun i => decide (i ≠ landmarkId)) = prev :=
        List.filter_eq_self.mpr fun a ha =>
          decide_eq_true fun h => hmem (h ▸ ha)
      rw [hself]
      simp
    rw [h1, h2]

/-- C7: the saved set read on load is empty when the storage key is absent
or its contents fail to parse, and is the parsed array when parsing
succeeds on a non-empty stored string; the read is a total function (the
parse failure path returns a value instead of crashing). -/
theorem initialSavedLandmarks_spec (parse : String → Option (List String))
    (s : String) (l : List String) :
    initialSavedLandmarks none parse = [] ∧
    (parse s = none → initialSavedLandmarks (some s) parse = []) ∧
    (s ≠ "" → parse s = some l → initialSavedLandmarks (some s) parse = l) := by
  refine ⟨rfl, fun hp => ?_, fun hs hp => ?_⟩
  · by_cases h : s = "" <;> simp [initialSavedLandmarks, h, hp]
  · simp [initialSavedLandmarks, hs, hp]

/-- C10: `toggleSaved` preserves distinctness: a duplicate-free saved list
stays duplicate-free after a toggle. -/
theorem toggleSaved_nodup (landmarkId : String) (prev : List String)
    (h : prev.Nodup) : (toggleSaved landmarkId prev).Nodup := by
  unfold toggleSaved
  by_cases hmem : landmarkId ∈ prev
  · rw [if_pos (by simpa using hmem)]
    exact h.filter _
  · rw [if_neg (by simpa using hmem)]
    simp [List.nodup_append, h, hmem]

theorem toggleSaved_nodup_witness :
    (toggleSaved "albany-1" ["troy-7", "albany-1"]).Nodup :=
  toggleSaved_nodup "albany-1" ["troy-7", "albany-1"] (by decide)

/-- C4: normalization maps the raw record at each position to a canonical
record whose id is the lowercased city, a dash and the raw id, whose
typetag is the raw `typetag` when present, else the raw `type` when
present, else the empty string, and whose `experiencetag` is the raw field
exactly when it is sequence-shaped and the empty sequence otherwise (the
canonical field's type makes it a sequence always). -/
theorem normalizeCityFile_spec {K : Type} (cf : CityFile K) (i : ℕ)
    (lm : RawLandmark K) (h : cf.landmarks.get? i = some lm) :
    ∃ o : Landmark K, (normalizeCityFile cf).get? i = some o ∧
      o.id = cf.city.toLower ++ "-" ++ lm.id ∧
      (∀ t, lm.typetag = some t → o.typetag = t) ∧
      (lm.typetag = none → ∀ t, lm.type = some t → o.typetag = t) ∧
      (lm.typetag = none → lm.type = none → o.typetag = "") ∧
      (∀ ts, lm.experiencetag = some ts → o.experiencetag = ts) ∧
      (lm.experiencetag = none → o.experiencetag = []) := by
  refine ⟨{ id := cf.city.toLower ++ "-" ++ lm.id, city := cf.city,
            name := lm.name, description := lm.description,
            address := lm.address, lat := lm.latitude, lng := lm.longitude,
            website := lm.website,
            typetag := lm.typetag.getD (lm.type.getD ""),
            experiencetag := lm.experiencetag.getD [] },
          ?_, rfl, ?_, ?_, ?_, ?_, ?_⟩
  · unfold normalizeCityFile
    rw [List.get?_map, h]
    rfl
  · intro t ht
    simp [ht]
  · intro h1 t ht
    simp [h1, ht]
  · intro h1 h2
    simp [h1, h2]
  · intro ts ht
    simp [ht]
  · intro h1
    simp [h1]

/-- The spec's own normalization example: the raw Troy record with id 7. -/
def rawMonument : RawLandmark ℚ :=
  ⟨"7", "Monument", none, none, 42.73, -73.68, none, none, none,
    some ["Free", "Outdoors"]⟩

/-- A single-record city file for the normalization witness. -/
def troyFile : CityFile ℚ := ⟨"Troy", [rawMonument]⟩

theorem normalizeCityFile_spec_witness :
    ∃ o : Landmark ℚ, (normalizeCityFile troyFile).get? 0 = some o ∧
      o.id = troyFile.city.toLower ++ "-" ++ rawMonument.id ∧
      (∀ t, rawMonument.typetag = some t → o.typetag = t) ∧
      (rawMonument.typetag = none →
        ∀ t, rawMonument.type = some t → o.typetag = t) ∧
      (rawMonument.typetag = none → rawMonument.type = none → o.typetag = "") ∧
      (∀ ts, rawMonument.experiencetag = some ts → o.experiencetag = ts) ∧
      (rawMonument.experiencetag = none → o.experiencetag = []) :=
  normalizeCityFile_spec troyFile 0 rawMonument rfl

/-- Everything the nearby pipeline guarantees once a user location is
present, for an arbitrary distance function: distances are attached by
`dist`, the pre-truncation list holds a landmark exactly when its distance
is at most the radius (inclusive), truncation to `limit` happens after the
ascending sort, and every kept entry is at most as far as every dropped
one. -/
lemma computeNearby_behavior {K : Type} [LinearOrder K]
    (dist : K → K → K → K → K) (landmarks : List (Landmark K))
    (u : UserLocation K) (radiusMiles : K) (limit : ℕ) :
    (∀ p ∈ computeNearby dist landmarks (some u) radiusMiles limit,
      p.2 = dist u.lat u.lng p.1.lat p.1.lng ∧ p.2 ≤ radiusMiles) ∧
    (∀ l : Landmark K,
      (∃ d, (l, d) ∈ sortedWithinRadius dist u landmarks radiusMiles) ↔
        l ∈ landmarks ∧ dist u.lat u.lng l.lat l.lng ≤ radiusMiles) ∧
    computeNearby dist landmarks (some u) radiusMiles limit
      = (sortedWithinRadius dist u landmarks radiusMiles).take limit ∧
    List.Pairwise (fun p q : Landmark K × K => p.2 ≤ q.2)
      (computeNearby dist landmarks (some u) radiusMiles limit) ∧
    (computeNearby dist landmarks (some u) radiusMiles limit).length ≤ limit ∧
    (∀ p ∈ computeNearby dist landmarks (some u) radiusMiles limit,
      ∀ q ∈ (sortedWithinRadius dist u landmarks radiusMiles).drop limit,
        p.2 ≤ q.2) := by
  have hs := sortedWithinRadius_pairwise dist u landmarks radiusMiles
  refine ⟨?_, ?_, rfl, ?_, ?_, ?_⟩
  · intro p hp
    rcases mem_computeNearby dist landmarks (some u) radiusMiles limit p hp with
      ⟨u2, hu, _, hd, hle⟩
    cases hu
    exact ⟨hd, hle⟩
  · intro l
    constructor
    · rintro ⟨d, hd⟩
      rcases (mem_sortedWithinRadius dist u landmarks radiusMiles (l, d)).mp hd
        with ⟨h1, h2, h3⟩
      exact ⟨h1, h2 ▸ h3⟩
    · rintro ⟨hl, hle⟩
      exact ⟨dist u.lat u.lng l.lat l.lng,
        (mem_sortedWithinRadius dist u landmarks radiusMiles _).mpr
          ⟨hl, rfl, hle⟩⟩
  · rw [computeNearby_some]
    exact hs.sublist (List.take_sublist _ _)
  · rw [computeNearby_some]
    exact List.length_take_le _ _
  · intro p hp q hq
    rw [computeNearby_some] at hp
    exact pairwise_take_drop hs limit p hp q hq

/-- C1: with the haversine distance (Earth radius 3958.7613 miles), the
nearby computation attaches to every entry its haversine distance to the
user location; the sorted pre-truncation list holds a landmark exactly
when that distance is at most `radiusMiles` (inclusive boundary); the
output is that list truncated after sorting, is in non-decreasing distance
order, has at most `limit` entries, and keeps only entries no farther than
any dropped one. -/
theorem computeNearby_spec (landmarks : List (Landmark ℝ)) (u : UserLocation ℝ)
    (radiusMiles : ℝ) (limit : ℕ) :
    (∀ p ∈ computeNearby haversineMiles landmarks (some u) radiusMiles limit,
      p.2 = haversineMiles u.lat u.lng p.1.lat p.1.lng ∧ p.2 ≤ radiusMiles) ∧
    (∀ l : Landmark ℝ,
      (∃ d, (l, d) ∈ sortedWithinRadius haversineMiles u landmarks radiusMiles) ↔
        l ∈ landmarks ∧
        haversineMiles u.lat u.lng l.lat l.lng ≤ radiusMiles) ∧
    computeNearby haversineMiles landmarks (some u) radiusMiles limit
      = (sortedWithinRadius haversineMiles u landmarks radiusMiles).take limit ∧
    List.Pairwise (fun p q : Landmark ℝ × ℝ => p.2 ≤ q.2)
      (computeNearby haversineMiles landmarks (some u) radiusMiles limit) ∧
    (computeNearby haversineMiles landmarks (some u) radiusMiles limit).length
      ≤ limit ∧
    (∀ p ∈ computeNearby haversineMiles landmarks (some u) radiusMiles limit,
      ∀ q ∈ (sortedWithinRadius haversineMiles u landmarks radiusMiles).drop limit,
        p.2 ≤ q.2) :=
  computeNearby_behavior haversineMiles landmarks u radiusMiles limit

/-- C8: with an absent user location, the nearby computation returns the
empty sequence, both for `computeNearby` at any radius and limit and for
the source's `nearby` pipeline. -/
theorem computeNearby_none (landmarks : List (Landmark ℝ))
    (sel : FilterSelection) (radiusMiles : ℝ) (limit : ℕ) :
    computeNearby haversineMiles landmarks none radiusMiles limit = [] ∧
    nearby landmarks sel none = [] :=
  ⟨rfl, rfl⟩

/-- C9: the source's `nearby` is computed from the already-filtered list,
so every landmark it returns is in `filterLandmarks` of the full list and
satisfies the active city, type and experience-tag predicates. -/
theorem nearby_subset_filtered (landmarks : List (Landmark ℝ))
    (sel : FilterSelection) (userLocation : Option (UserLocation ℝ)) :
    nearby landmarks sel userLocation
      = computeNearby haversineMiles (filterLandmarks landmarks sel)
          userLocation NEARBY_RADIUS_MI NEARBY_LIMIT ∧
    (∀ p ∈ nearby landmarks sel userLocation,
      p.1 ∈ filterLandmarks landmarks sel ∧
      (sel.selectedCity = "" ∨ p.1.city = sel.selectedCity) ∧
      (sel.selectedType = "" ∨ p.1.typetag = sel.selectedType) ∧
      matchesExperienceTags p.1 sel.selectedExperienceTags = true) := by
  refine ⟨rfl, fun p hp => ?_⟩
  rcases mem_computeNearby haversineMiles (filterLandmarks landmarks sel)
      userLocation NEARBY_RADIUS_MI NEARBY_LIMIT p hp with ⟨u, _, hmem, _, _⟩
  have h := (mem_filterLandmarks landmarks sel p.1).mp hmem
  exact ⟨hmem, h.2.1, h.2.2.1, h.2.2.2⟩

end CapitalRegionExplorer
